import Mathlib

/-!
Verification development for the nexmo-clientSDK repository.

The definitions below are a shallow embedding of the JavaScript sources under
dist/: NXMCall (modules/nxmCall.js), Conversation (conversation.js), Member
(member.js), Media (modules/media.js), RtcEventHandler (handlers/rtc_events.js)
and ApplicationEventsHandler (handlers/application_events.js).  JavaScript
null/undefined values are modelled as `Option`, JS string truthiness as
`jsTruthyStr`, JS `Map` objects as association lists, object references as
natural-number handles into an object store, and the network as an explicit
oracle argument.  Thrown exceptions are modelled with `Except`.
-/

namespace NexmoSDK

/-- Truthiness of a JS value that is a string, null (None) or undefined (None):
only a nonempty string is truthy. -/
def jsTruthyStr : Option String → Bool
  | none => false
  | some s => s != ""

/-- Rendering of a nullable string inside a JS template literal:
null prints as the string null. -/
def jsTemplate : Option String → String
  | none => "null"
  | some s => s

/-- Upper-casing of a string, modelling the JS toUpperCase call.  This maps
Char.toUpper over the character data, which agrees with String.toUpper and
reduces inside the kernel. -/
def jsToUpper (s : String) : String := String.mk (s.data.map Char.toUpper)

/-- Test whether a string starts with the given text, modelling the JS
startsWith call.  This compares the character data directly, which agrees
with String.startsWith and reduces inside the kernel. -/
def jsStartsWith (s pre : String) : Bool := s.data.take pre.data.length == pre.data

/-! ### NXMCall status constants (modules/nxmCall.js, CALL_STATUS enum) -/

namespace CALL_STATUS

def STARTED : String := "started"

def RINGING : String := "ringing"

def ANSWERED : String := "answered"

def COMPLETED : String := "completed"

def BUSY : String := "busy"

def TIMEOUT : String := "timeout"

def UNANSWERED : String := "unanswered"

def REJECTED : String := "rejected"

def FAILED : String := "failed"

end CALL_STATUS

namespace CALL_DIRECTION

def INBOUND : String := "inbound"

def OUTBOUND : String := "outbound"

end CALL_DIRECTION

/-- Permitted status transition table of NXMCall (STATUS_PERMITTED_FLOW,
modules/nxmCall.js lines 107-133).  The source is a Map from the upper-case
current status to the Set of permitted lower-case target statuses; the model
returns the membership list for a key, none for an absent key. -/
def STATUS_PERMITTED_FLOW (key : String) : Option (List String) :=
  if key = "STARTED" then
    some [CALL_STATUS.RINGING, CALL_STATUS.ANSWERED, CALL_STATUS.FAILED,
      CALL_STATUS.TIMEOUT, CALL_STATUS.UNANSWERED, CALL_STATUS.REJECTED,
      CALL_STATUS.BUSY]
  else if key = "RINGING" then
    some [CALL_STATUS.ANSWERED, CALL_STATUS.FAILED, CALL_STATUS.TIMEOUT,
      CALL_STATUS.UNANSWERED, CALL_STATUS.REJECTED, CALL_STATUS.BUSY]
  else if key = "ANSWERED" then
    some [CALL_STATUS.COMPLETED, CALL_STATUS.FAILED]
  else
    none

/-- Conversation reference held by a call: the conversation id together with
the id of the local member (conversation.me.id).  The source dereferences
conversation.me.id without a null check, so the model assumes me is set
whenever the conversation is set. -/
structure ConvRef where
  id : String
  meId : String
deriving Repr, DecidableEq

/-- State of one NXMCall object (modules/nxmCall.js).  The field emitted
counts the emissions of the call:status:changed event; conv models
this.conversation (none when null); id is the active RTC leg id. -/
structure Call where
  status : Option String := none
  direction : String := CALL_DIRECTION.INBOUND
  conv : Option ConvRef := none
  id : Option String := none
  knocking_id : Option String := none
  client_ref : Option String := none
  transferred : Bool := false
  emitted : Nat := 0
deriving Repr, DecidableEq

/-- Translation of NXMCall._isValidStatusTransition (modules/nxmCall.js lines
168-184).  selfStatus is this.status.  A falsy status argument throws a
NexmoClientError (modelled as Except.error); a falsy current status accepts
any transition; otherwise the upper-cased current status is looked up in
STATUS_PERMITTED_FLOW, a missing row or a self transition is rejected, and
membership in the permitted set decides the rest. -/
def _isValidStatusTransition (selfStatus : Option String) (status : Option String) :
    Except String Bool :=
  if jsTruthyStr status = false then
    .error ("Provide the status to validate the transition from " ++ jsTemplate selfStatus)
  else if jsTruthyStr selfStatus = false then
    .ok true
  else
    let current_status := jsToUpper (selfStatus.getD "")
    match STATUS_PERMITTED_FLOW current_status with
    | none => .ok false
    | some allowed =>
      if selfStatus = status then .ok false
      else .ok (allowed.contains (status.getD ""))

/-- Translation of NXMCall._setStatusAndEmit (modules/nxmCall.js lines
334-341).  A validation failure is only logged (the state is returned
unchanged); a validation success assigns the status and emits one
call:status:changed event; an exception from the validator propagates. -/
def _setStatusAndEmit (c : Call) (status : Option String) : Except String Call :=
  match _isValidStatusTransition c.status status with
  | .error e => .error e
  | .ok false => .ok c
  | .ok true => .ok { c with status := status, emitted := c.emitted + 1 }

/-- Invocation of _setStatusAndEmit on a nonempty literal status, as done by
every branch of _handleStatusChange; for such arguments the validator never
throws, so the Except wrapper is collapsed. -/
def _setStatusAndEmitOk (c : Call) (s : String) : Call :=
  match _setStatusAndEmit c (some s) with
  | .ok c2 => c2
  | .error _ => c

/-! ### Events consumed by NXMCall._handleStatusChange -/

/-- Channel object carried in event bodies: the RTC leg id and the knocking
correlation id, both possibly absent. -/
structure Channel where
  id : Option String := none
  knocking_id : Option String := none
deriving Repr, DecidableEq

/-- Body fields of an inbound event that _handleStatusChange inspects.
userHasAudioSettings models the truthiness of body.user.media together with
body.user.media.audio_settings; timestampJoined models
body.timestamp.hasOwnProperty applied to the joined key; sip_code models
body.reason.sip_code. -/
structure EventBody where
  channel : Option Channel := none
  audio : Bool := false
  invited_by : Option String := none
  userHasAudioSettings : Bool := false
  timestampJoined : Bool := false
  sip_code : Nat := 0
deriving Repr, DecidableEq

/-- Inbound event as seen by NXMCall._handleStatusChange: the type string,
the sender member id and the body.  The source field from is a Lean keyword
and is rendered as fromId. -/
structure NXMEvent where
  type : String
  fromId : Option String := none
  body : EventBody := {}
deriving Repr, DecidableEq

/-- Translation of the _isEventFromMe computation in _handleStatusChange
(modules/nxmCall.js line 234): with no conversation set the action is known
to be initiated locally; otherwise the conversation local member id is
compared with the event sender. -/
def _isEventFromMe (c : Call) (e : NXMEvent) : Bool :=
  match c.conv with
  | none => true
  | some cr => some cr.meId == e.fromId

/-- Translation of the _isOutbound computation in _handleStatusChange
(modules/nxmCall.js line 235). -/
def _isOutbound (c : Call) : Bool := c.direction == CALL_DIRECTION.OUTBOUND

/-- Translation of NXMCall._handleStatusChange (modules/nxmCall.js lines
232-326).  The source builds a map from event type to handler and invokes the
matching entry; unhandled types are ignored.  The media.enable call awaited in
the member joined branch is an external collaborator; its outcome is passed in
as the oracle argument enableOk (the source rethrows the enable error after
switching to FAILED; only the resulting call state is modelled). -/
def _handleStatusChange (enableOk : Bool) (c : Call) (e : NXMEvent) : Call :=
  let fromMe := _isEventFromMe c e
  let outb := _isOutbound c
  if e.type = "member:joined" then
    if (match e.body.channel with
        | some ch => jsTruthyStr ch.knocking_id
        | none => false) then
      if enableOk then _setStatusAndEmitOk c CALL_STATUS.STARTED
      else _setStatusAndEmitOk c CALL_STATUS.FAILED
    else c
  else if e.type = "member:invited" then
    if e.body.invited_by == none && e.body.userHasAudioSettings then
      _setStatusAndEmitOk c CALL_STATUS.STARTED
    else c
  else if e.type = "rtc:hangup" then
    if c.status = some CALL_STATUS.ANSWERED then
      _setStatusAndEmitOk c CALL_STATUS.COMPLETED
    else if (fromMe && outb) || (!fromMe && !outb) then
      _setStatusAndEmitOk c CALL_STATUS.UNANSWERED
    else
      _setStatusAndEmitOk c CALL_STATUS.REJECTED
  else if e.type = "member:left" then
    if !e.body.timestampJoined && !(c.status == some CALL_STATUS.ANSWERED) then
      if (fromMe && outb) || (!fromMe && !outb) then
        _setStatusAndEmitOk c CALL_STATUS.UNANSWERED
      else
        _setStatusAndEmitOk c CALL_STATUS.REJECTED
    else c
  else if e.type = "member:media" then
    if !(c.status == some CALL_STATUS.ANSWERED) && e.body.audio then
      let c1 :=
        if fromMe && e.body.channel.isSome then
          { c with id := (e.body.channel.getD {}).id }
        else c
      if (!fromMe || !outb) && jsTruthyStr c1.id then
        _setStatusAndEmitOk c1 CALL_STATUS.ANSWERED
      else c1
    else c
  else if e.type = "sip:ringing" then
    if !(c.status == some CALL_STATUS.RINGING) then
      _setStatusAndEmitOk c CALL_STATUS.RINGING
    else c
  else if e.type = "sip:hangup" then
    if e.body.sip_code = 486 then _setStatusAndEmitOk c CALL_STATUS.BUSY
    else if e.body.sip_code = 487 then _setStatusAndEmitOk c CALL_STATUS.TIMEOUT
    else if e.body.sip_code = 403 then _setStatusAndEmitOk c CALL_STATUS.FAILED
    else c
  else if e.type = "knocking:delete:success" then
    _setStatusAndEmitOk c CALL_STATUS.UNANSWERED
  else c

/-! ### Enumerated view of the nine call statuses, used to quantify claims -/

/-- Closed enumeration of the nine CALL_STATUS values. -/
inductive CallStatusV
  | started
  | ringing
  | answered
  | completed
  | busy
  | timeout
  | unanswered
  | rejected
  | failed
deriving Repr, DecidableEq, Fintype

/-- String carried by each CALL_STATUS value. -/
def CallStatusV.str : CallStatusV → String
  | .started => CALL_STATUS.STARTED
  | .ringing => CALL_STATUS.RINGING
  | .answered => CALL_STATUS.ANSWERED
  | .completed => CALL_STATUS.COMPLETED
  | .busy => CALL_STATUS.BUSY
  | .timeout => CALL_STATUS.TIMEOUT
  | .unanswered => CALL_STATUS.UNANSWERED
  | .rejected => CALL_STATUS.REJECTED
  | .failed => CALL_STATUS.FAILED

/-- Permitted-flow table exactly as the specification and the claim state it:
from a null status any status is permitted; STARTED and RINGING may move to
the listed statuses; ANSWERED may move to COMPLETED or FAILED; the six
terminal statuses and every self transition are rejected.  This definition
follows the words of the claim and is compared against the source-derived
validator. -/
def specAllowed : Option CallStatusV → CallStatusV → Bool
  | none, _ => true
  | some .started, t =>
    [CallStatusV.ringing, .answered, .failed, .timeout, .unanswered, .rejected,
      .busy].contains t
  | some .ringing, t =>
    [CallStatusV.answered, .failed, .timeout, .unanswered, .rejected,
      .busy].contains t
  | some .answered, t => [CallStatusV.completed, .failed].contains t
  | some _, _ => false

/-! ### Conversation event routing (conversation.js, _handleEvent) -/

/-- Reduced conversation state tracked by the model: the sequence counter,
the keys of the conversation event log, and the member ids present.  The
remaining conversation fields are not read or written by the routed paths the
claims are about. -/
structure ConvState where
  sequence_number : Nat := 0
  eventIds : List Nat := []
  memberIds : List String := []
deriving Repr, DecidableEq

/-- Raw inbound event as consumed by Conversation._handleEvent: its type and
sender id. -/
structure RawEvent where
  type : String
  fromId : Option String := none
deriving Repr, DecidableEq

/-- Translation of Conversation._handleEvent (conversation.js lines 550-569).
An rtc-prefixed type is re-emitted immediately and nothing else happens.
Otherwise the sequence counter is incremented, a missing sender member is
created, the type-specific handler constructs the typed event (abstracted
here as its resulting event id, constructedId, since no handler touches the
state tracked by this model), the constructed event is registered in the log
unless the type is a typing indicator, and the event is emitted. -/
def Conversation_handleEvent (c : ConvState) (e : RawEvent) (constructedId : Nat) :
    ConvState :=
  if jsStartsWith e.type "rtc" then c
  else
    let c1 : ConvState := { c with sequence_number := c.sequence_number + 1 }
    let c2 : ConvState :=
      match e.fromId with
      | some f =>
        if c1.memberIds.contains f then c1
        else { c1 with memberIds := c1.memberIds ++ [f] }
      | none => c1
    if ["text:typing:on", "text:typing:off"].contains e.type then c2
    else { c2 with eventIds := c2.eventIds ++ [constructedId] }

/-! ### Member model (member.js) -/

/-- Reduced member state: lifecycle state, per-transition timestamps, the
media payload and the mirrored call status.  channel leg bookkeeping is not
tracked because no modelled path reads it. -/
structure MemberState where
  state : Option String := none
  callStatus : Option String := none
  timestampInvited : Option String := none
  timestampJoined : Option String := none
  timestampLeft : Option String := none
  media : Option String := none
deriving Repr, DecidableEq

/-- Translation of Member._setCallStatusAndEmit (member.js lines 261-266).
The new value is compared as a string against the current callStatus; on a
difference the callStatus is assigned and one member:call:status event is
emitted on the conversation.  The returned Bool reports whether the event was
emitted. -/
def Member_setCallStatusAndEmit (m : MemberState) (callStatus : String) :
    MemberState × Bool :=
  if m.callStatus != some callStatus then
    ({ m with callStatus := some callStatus }, true)
  else
    (m, false)

/-- Body fields of a member event as consumed by Member._handleEvent.
userAudioEnabled models body.user.media together with audio_settings.enabled;
reason_text models body.reason.text; status models body.status for leg status
updates. -/
structure MemberEvent where
  type : String
  invited_by : Option String := none
  userAudioEnabled : Bool := false
  channel : Option Channel := none
  reason_text : Option String := none
  status : String := ""
  media : Option String := none
  tsInvited : Option String := none
  tsJoined : Option String := none
  tsLeft : Option String := none
deriving Repr, DecidableEq

/-- Translation of Member._handleEvent (member.js lines 212-254) restricted
to the state of MemberState.  The _normalise call copies the event body
fields onto the member; of those, only the fields present in MemberState are
tracked.  The channel leg update of leg:status:update (utils.updateMemberLegs)
only touches the untracked channel.legs field.  The returned Bool reports
whether a member:call:status event was emitted. -/
def Member_handleEvent (m : MemberState) (e : MemberEvent) : MemberState × Bool :=
  if e.type = "member:invited" then
    let m1 : MemberState :=
      { m with state := some "INVITED", timestampInvited := e.tsInvited }
    if !jsTruthyStr e.invited_by && e.userAudioEnabled then
      Member_setCallStatusAndEmit m1 "started"
    else (m1, false)
  else if e.type = "member:joined" then
    let m1 : MemberState :=
      { m with state := some "JOINED", timestampJoined := e.tsJoined }
    if (match e.channel with
        | some ch => jsTruthyStr ch.knocking_id
        | none => false) then
      Member_setCallStatusAndEmit m1 "started"
    else (m1, false)
  else if e.type = "member:left" then
    let m1 : MemberState :=
      { m with state := some "LEFT", timestampLeft := e.tsLeft }
    match e.reason_text with
    | some t => if t != "" then Member_setCallStatusAndEmit m1 t else (m1, false)
    | none => (m1, false)
  else if e.type = "member:media" then
    ({ m with media := e.media }, false)
  else if e.type = "leg:status:update" then
    Member_setCallStatusAndEmit m e.status
  else if e.type = "audio:ringing:start" then
    if !jsTruthyStr m.callStatus || m.callStatus == some "started" then
      Member_setCallStatusAndEmit m "ringing"
    else (m, false)
  else (m, false)

/-! ### Media module (modules/media.js) -/

/-- Translation of Media._enableMediaTracks (modules/media.js lines 409-413):
every track in the list has its enabled flag set to the given value.  A track
is modelled by its enabled flag. -/
def _enableMediaTracks (tracks : List Bool) (enabled : Bool) : List Bool :=
  tracks.map (fun _ => enabled)

/-- Translation of Media._setMediaTracksAndMute (modules/media.js lines
419-439).  The affected tracks are first toggled optimistically, then the
mute notification event is posted; the network outcome is the oracle sendOk.
On failure the toggle call is repeated with the opposite flag and a
NexmoApiError is rethrown.  The result is the final track state paired with
the rethrown error, if any. -/
def _setMediaTracksAndMute (tracks : List Bool) (mute : Bool) (sendOk : Bool) :
    List Bool × Option String :=
  let t1 := _enableMediaTracks tracks (!mute)
  if sendOk then (t1, none)
  else (_enableMediaTracks t1 mute, some "NexmoApiError")

/-- Translation of Utils.validateDTMF (sdk.js lines 946-948): the digit
string must match one to forty-five characters drawn from the decimal digits,
a-d, A-D, the hash, the star, p and P. -/
def validateDTMF (digit : String) : Bool :=
  decide (1 ≤ digit.length) && decide (digit.length ≤ 45) &&
    digit.data.all (fun ch => ch.isDigit || "abcdABCD#*pP".data.contains ch)

/-- Parameters of Conversation.invite (conversation.js lines 221-224): an
optional user id and an optional user name. -/
structure InviteParams where
  id : Option String := none
  user_name : Option String := none
deriving Repr, DecidableEq

/-- Translation of the control flow of Conversation.invite (conversation.js
lines 221-257).  A missing params object, or params carrying neither a truthy
id nor a truthy user_name, throws error:invite:missing:params before any
network request; otherwise one POST request is issued whose outcome is the
oracle sendOk.  The Nat in the result counts the network requests sent. -/
def invite (params : Option InviteParams) (sendOk : Bool) : Except String Unit × Nat :=
  match params with
  | none => (.error "error:invite:missing:params", 0)
  | some p =>
    if !jsTruthyStr p.id && !jsTruthyStr p.user_name then
      (.error "error:invite:missing:params", 0)
    else if sendOk then (.ok (), 1)
    else (.error "NexmoApiError", 1)

/-- Translation of the control flow of Media.sendDTMF (modules/media.js lines
664-697).  An invalid digit throws error:audio:dtmf:invalid-digit before any
network request (the catch block rewraps it, keeping the error type);
otherwise one POST request is issued whose outcome is the oracle sendOk.  The
Nat in the result counts the network requests sent. -/
def sendDTMF (digit : String) (sendOk : Bool) : Except String Unit × Nat :=
  if !validateDTMF digit then
    (.error "error:audio:dtmf:invalid-digit", 0)
  else if sendOk then (.ok (), 1)
  else (.error "NexmoApiError", 1)

/-! ### JS Map modelling.  A JS Map is modelled as an association list whose
lookup behaviour matches Map.get; mapSet and mapDelete are lookup-equivalent
to Map.set and Map.delete. -/

/-- Lookup of a key, modelling Map.get. -/
def mapGet [BEq κ] (m : List (κ × α)) (k : κ) : Option α := m.lookup k

/-- Insertion or replacement of a binding, modelling Map.set. -/
def mapSet [BEq κ] (m : List (κ × α)) (k : κ) (v : α) : List (κ × α) :=
  (k, v) :: m.filter (fun p => p.1 != k)

/-- Removal of a binding, modelling Map.delete. -/
def mapDelete [BEq κ] (m : List (κ × α)) (k : κ) : List (κ × α) :=
  m.filter (fun p => p.1 != k)

/-- Pointwise update of the value bound to a key, when present.  This models
a JS mutation of a field of the object found under the key; the source throws
a TypeError when the object is absent, a case the theorems exclude by
hypothesis. -/
def mapUpdate [BEq κ] (m : List (κ × α)) (k : κ) (f : α → α) : List (κ × α) :=
  m.map (fun p => if p.1 == k then (p.1, f p.2) else p)

/-! ### Application-level state (user.js Application, handlers/) -/

/-- Member entry of a conversation as tracked at the application level for
the transfer flow: the transfer marks set by RtcEventHandler. -/
structure AppMember where
  transferred_to : Option String := none
  transferred_from : Option String := none
deriving Repr, DecidableEq

/-- Conversation entry of application.conversations: its id, the id of the
local member and the member map. -/
structure AppConversation where
  id : String
  meId : String
  members : List (String × AppMember) := []
deriving Repr, DecidableEq

/-- Application state: the conversation map, the calls map and the draft call
list (both holding references into the call object store callObjs), and the
allocator counter for fresh call objects.  Media session internals
(rtcObjects, pc, activeStreams) are not tracked; the transfer handler only
copies them between conversations. -/
structure AppState where
  conversations : List (String × AppConversation) := []
  calls : List (String × Nat) := []
  _call_draft_list : List (String × Nat) := []
  callObjs : List (Nat × Call) := []
  nextRef : Nat := 0
deriving Repr, DecidableEq

/-- Fields of an rtc:transfer event read by RtcEventHandler._processRtcTransfer:
the new conversation id (cid), the sender member id, the old conversation id
(body.transferred_from) and the transferred member id (body.was_member). -/
structure RtcTransferEvent where
  cid : String
  fromId : String
  transferred_from : String
  was_member : String
deriving Repr, DecidableEq

/-- Translation of RtcEventHandler._processRtcTransfer (handlers/rtc_events.js
lines 44-75).  An unknown call is only logged.  Otherwise the transferred
member of the conversation held by the call gets transferred_to set to the
new conversation (undefined when the new conversation is unknown), the call
conversation object is replaced (a missing new conversation leaves it in
place, per _setupConversationObject), the call is marked transferred, the
calls map gains the new key and loses the old one, and when the old
conversation is known the joining member of the new conversation gets
transferred_from set to it.  The media-session copying acts only on untracked
fields. -/
def _processRtcTransfer (app : AppState) (e : RtcTransferEvent) : AppState :=
  let old_conversation := mapGet app.conversations e.transferred_from
  let new_conversation := mapGet app.conversations e.cid
  match mapGet app.calls e.transferred_from with
  | none => app
  | some r =>
    match mapGet app.callObjs r with
    | none => app
    | some nxmCall =>
      let app1 : AppState :=
        match nxmCall.conv with
        | some cr =>
          { app with conversations :=
              mapUpdate app.conversations cr.id (fun oc =>
                { oc with members :=
                    mapUpdate oc.members e.was_member (fun m =>
                      { m with transferred_to :=
                          if new_conversation.isSome then some e.cid else none }) }) }
        | none => app
      let nxmCall1 : Call :=
        match new_conversation with
        | some nc => { nxmCall with conv := some ⟨nc.id, nc.meId⟩, transferred := true }
        | none => { nxmCall with transferred := true }
      let app2 : AppState := { app1 with callObjs := mapSet app1.callObjs r nxmCall1 }
      let app3 : AppState :=
        { app2 with calls := mapDelete (mapSet app2.calls e.cid r) e.transferred_from }
      match old_conversation with
      | some _ =>
        { app3 with conversations :=
            mapUpdate app3.conversations e.cid (fun nc =>
              { nc with members :=
                  mapUpdate nc.members e.fromId (fun m =>
                    { m with transferred_from := some e.transferred_from }) }) }
      | none => app3

/-- Translation of NXMCall.createServerCall (modules/nxmCall.js lines
441-474) acting on the call object r: the client correlation id (allocated by
utils.allocateUUID, passed in as uuid) is stored on the call and the call is
registered in the draft list, then the knocking POST request is sent; its
outcome is the oracle response (the knocking id on success).  On failure a
NexmoApiError is rethrown; the draft registration is not undone. -/
def createServerCall (app : AppState) (r : Nat) (uuid : String)
    (response : Option String) : AppState × Except String String :=
  match mapGet app.callObjs r with
  | none => (app, .error "NexmoClientError")
  | some c =>
    let app1 : AppState :=
      { app with
          callObjs := mapSet app.callObjs r { c with client_ref := some uuid },
          _call_draft_list := mapSet app._call_draft_list uuid r }
    match response with
    | some kid => (app1, .ok kid)
    | none => (app1, .error "NexmoApiError")

/-- Translation of Application.callServer (user.js lines 256-267): a fresh
NXMCall is constructed, its direction set to OUTBOUND, createServerCall is
awaited and the returned knocking id is stored on the call.  On success the
reference of the new call object is returned. -/
def callServer (app : AppState) (uuid : String) (response : Option String) :
    AppState × Except String Nat :=
  let r := app.nextRef
  let call0 : Call := { direction := CALL_DIRECTION.OUTBOUND }
  let app0 : AppState :=
    { app with callObjs := mapSet app.callObjs r call0, nextRef := r + 1 }
  match createServerCall app0 r uuid response with
  | (app1, .ok kid) =>
    match mapGet app1.callObjs r with
    | some c =>
      ({ app1 with callObjs := mapSet app1.callObjs r { c with knocking_id := some kid } },
        .ok r)
    | none => (app1, .error "NexmoClientError")
  | (app1, .error err) => (app1, .error err)

/-- Fields of a member:joined event read by
ApplicationEventsHandler._processMemberJoined: the conversation id, the
joining member id, the client correlation reference of the raw event and the
channel of the event body. -/
structure MemberJoinedEvent where
  cid : String
  fromId : String
  client_ref : Option String := none
  channel : Option Channel := none
deriving Repr, DecidableEq

/-- Translation of ApplicationEventsHandler._processMemberJoined
(handlers/application_events.js lines 54-70).  When the event body carries a
channel, the raw event carries a truthy client_ref and a draft call is
pending under it, the draft call is bound to the conversation of the event
(the source dereferences conversation.me and would throw on an unknown
conversation; the model returns the state unchanged there, and the theorems
assume the conversation is known), the draft entry plus the client_ref and
knocking_id fields are discarded, the call is registered in the calls map
under the conversation id, and the event is fed into the call status state
machine, whose media enable outcome is the oracle enableOk. -/
def _processMemberJoined (enableOk : Bool) (app : AppState) (e : MemberJoinedEvent) :
    AppState :=
  match e.client_ref with
  | none => app
  | some cref =>
    if e.channel.isSome && cref != "" then
      match mapGet app._call_draft_list cref with
      | none => app
      | some r =>
        match mapGet app.callObjs r, mapGet app.conversations e.cid with
        | some nxmCall, some conversation =>
          let nxmCall1 : Call :=
            { nxmCall with
                conv := some ⟨conversation.id, conversation.meId⟩,
                client_ref := none,
                knocking_id := none }
          let ev : NXMEvent :=
            { type := "member:joined", fromId := some e.fromId,
              body := { channel := e.channel } }
          let nxmCall2 := _handleStatusChange enableOk nxmCall1 ev
          { app with
              _call_draft_list := mapDelete app._call_draft_list cref,
              calls := mapSet app.calls conversation.id r,
              callObjs := mapSet app.callObjs r nxmCall2 }
        | _, _ => app
    else app

deriving instance DecidableEq for Except

/-! ### Helper lemmas shared by the claim theorems -/

/-- Lemma: over the nine enumerated statuses the source validator agrees with
the permitted-flow table of the specification. -/
theorem statusTransition_agrees_table :
    ∀ (fr : Option CallStatusV) (t : CallStatusV),
      _isValidStatusTransition (fr.map CallStatusV.str) (some t.str) =
        .ok (specAllowed fr t) := by
  decide

/-- Lemma: effect of _setStatusAndEmit on a call whose status is one of the
enumerated statuses (or null). -/
theorem setStatusAndEmit_eq (c : Call) (fr : Option CallStatusV) (t : CallStatusV)
    (h : c.status = fr.map CallStatusV.str) :
    _setStatusAndEmit c (some t.str) =
      .ok (if specAllowed fr t then
            { c with status := some t.str, emitted := c.emitted + 1 }
          else c) := by
  unfold _setStatusAndEmit
  rw [h, statusTransition_agrees_table]
  cases hb : specAllowed fr t <;> simp [hb]

/-- Lemma: effect of the collapsed _setStatusAndEmitOk under the same
hypothesis. -/
theorem setStatusAndEmitOk_eq (c : Call) (fr : Option CallStatusV) (t : CallStatusV)
    (h : c.status = fr.map CallStatusV.str) :
    _setStatusAndEmitOk c t.str =
      (if specAllowed fr t then
        { c with status := some t.str, emitted := c.emitted + 1 }
      else c) := by
  unfold _setStatusAndEmitOk
  rw [setStatusAndEmit_eq c fr t h]

/-! ### C1: the permitted-flow table governs _setStatusAndEmit -/

/-- C1: for every pair (from, to) of the permitted-flow table (null to any
status; STARTED to RINGING, ANSWERED, FAILED, TIMEOUT, UNANSWERED, REJECTED,
BUSY; RINGING to ANSWERED, FAILED, TIMEOUT, UNANSWERED, REJECTED, BUSY;
ANSWERED to COMPLETED, FAILED), _setStatusAndEmit assigns the new status and
emits exactly one call:status:changed event; for every pair not in the table,
including self transitions and every pair leaving a terminal status, the
status is unchanged and no event is emitted. -/
theorem call_status_transition_table (c : Call) (fr : Option CallStatusV)
    (t : CallStatusV) (h : c.status = fr.map CallStatusV.str) :
    _setStatusAndEmit c (some t.str) =
      .ok (if specAllowed fr t then
            { c with status := some t.str, emitted := c.emitted + 1 }
          else c) := by
  unfold _setStatusAndEmit
  rw [h, statusTransition_agrees_table]
  cases hb : specAllowed fr t <;> simp [hb]

/-- Witness for C1 at the concrete transition STARTED to RINGING. -/
theorem call_status_transition_table_witness :
    _setStatusAndEmit { status := some CALL_STATUS.STARTED } (some CALL_STATUS.RINGING) =
      .ok { status := some CALL_STATUS.RINGING, emitted := 1 } := by
  simpa using call_status_transition_table { status := some CALL_STATUS.STARTED }
    (some CallStatusV.started) CallStatusV.ringing rfl

/-! ### C7: validation failures and the falsy-status guard -/

/-- Lemma: for a nonempty status argument the validator never throws. -/
theorem validStatusTransition_no_throw (st : Option String) (s : String)
    (h : s ≠ "") : ∃ b, _isValidStatusTransition st (some s) = .ok b := by
  unfold _isValidStatusTransition
  split
  · next hc =>
    exact absurd hc (by simp [jsTruthyStr, h])
  · split
    · exact ⟨_, rfl⟩
    · cases hm : STATUS_PERMITTED_FLOW (jsToUpper (st.getD "")) with
      | none => exact ⟨false, by simp [hm]⟩
      | some allowed =>
        by_cases hst : st = some s
        · exact ⟨false, by simp [hst]; split <;> rfl⟩
        · exact ⟨allowed.contains ((some s).getD ""), by simp [hm, hst]⟩

/-- Counterexample for C7 as stated: with a null status argument the
validator throws and the exception propagates out of _setStatusAndEmit, so
the quantification over all status arguments, null included, fails. -/
theorem set_status_falsy_throws_counterexample :
    _setStatusAndEmit { status := some CALL_STATUS.STARTED } none =
      .error ("Provide the status to validate the transition from " ++
        CALL_STATUS.STARTED) := rfl

/-- C7 (amended): for every nonempty status argument the operation is
non-fatal: it never throws, and when validation fails the call state is
returned unchanged (the failure is only logged).  For a null, undefined or
empty status argument the validator instead throws a NexmoClientError, the
status still being left unchanged. -/
theorem set_status_nonfatal_for_truthy (c : Call) (s : String) (h : s ≠ "") :
    (∃ c2, _setStatusAndEmit c (some s) = .ok c2) ∧
      (_isValidStatusTransition c.status (some s) = .ok false →
        _setStatusAndEmit c (some s) = .ok c) := by
  obtain ⟨b, hb⟩ := validStatusTransition_no_throw c.status s h
  refine ⟨?_, ?_⟩
  · unfold _setStatusAndEmit
    rw [hb]
    cases b
    · exact ⟨c, rfl⟩
    · exact ⟨_, rfl⟩
  · intro hf
    unfold _setStatusAndEmit
    rw [hf]

/-! ### C2: rtc:hangup outcomes -/

/-- Lemma: on an rtc:hangup event _handleStatusChange reduces to the hangup
branch of the dispatch map. -/
theorem hangup_dispatch (enableOk : Bool) (c : Call) (e : NXMEvent)
    (ht : e.type = "rtc:hangup") :
    _handleStatusChange enableOk c e =
      (if c.status = some CALL_STATUS.ANSWERED then
        _setStatusAndEmitOk c CALL_STATUS.COMPLETED
      else if (_isEventFromMe c e && _isOutbound c) ||
          (!_isEventFromMe c e && !_isOutbound c) then
        _setStatusAndEmitOk c CALL_STATUS.UNANSWERED
      else _setStatusAndEmitOk c CALL_STATUS.REJECTED) := by
  unfold _handleStatusChange
  rw [ht]
  simp

/-- Counterexample for C2 as stated: a call already in the terminal status
REJECTED is not in ANSWERED, the hangup event originates from the local party
and the call is outbound, yet the resulting status is not UNANSWERED (the
transition table rejects leaving a terminal status), contradicting the claim
quantified over every call not in ANSWERED. -/
theorem rtc_hangup_terminal_counterexample :
    (_handleStatusChange true
        { status := some CALL_STATUS.REJECTED, direction := CALL_DIRECTION.OUTBOUND }
        { type := "rtc:hangup" }).status = some CALL_STATUS.REJECTED ∧
      some CALL_STATUS.REJECTED ≠ some CALL_STATUS.UNANSWERED := by
  constructor
  · rfl
  · decide

/-- C2 (amended): an rtc:hangup event on a call in ANSWERED always yields
COMPLETED, regardless of direction and origin.  On a call not in ANSWERED the
handler requests UNANSWERED exactly when the event originates from the local
party on an outbound call or from the remote party on an inbound call (a call
with no conversation set counts as local origin), and REJECTED in the other
two combinations; the requested status is actually assigned (with one status
event emitted) exactly when the current status is null, STARTED or RINGING,
and the call is left unchanged when the current status is terminal. -/
theorem rtc_hangup_status_outcomes (enableOk : Bool) (c : Call) (e : NXMEvent)
    (fr : Option CallStatusV) (ht : e.type = "rtc:hangup")
    (hs : c.status = fr.map CallStatusV.str) :
    _handleStatusChange enableOk c e =
      if fr = some CallStatusV.answered then
        { c with status := some CALL_STATUS.COMPLETED, emitted := c.emitted + 1 }
      else if fr = none ∨ fr = some CallStatusV.started ∨ fr = some CallStatusV.ringing then
        { c with
            status := some (if (_isEventFromMe c e && _isOutbound c) ||
                (!_isEventFromMe c e && !_isOutbound c) then CALL_STATUS.UNANSWERED
              else CALL_STATUS.REJECTED),
            emitted := c.emitted + 1 }
      else c := by
  have hC := setStatusAndEmitOk_eq c fr CallStatusV.completed hs
  have hU := setStatusAndEmitOk_eq c fr CallStatusV.unanswered hs
  have hR := setStatusAndEmitOk_eq c fr CallStatusV.rejected hs
  simp only [CallStatusV.str] at hC hU hR
  rw [hangup_dispatch enableOk c e ht]
  rcases fr with _ | v
  · cases hcond : ((_isEventFromMe c e && _isOutbound c) ||
        (!_isEventFromMe c e && !_isOutbound c)) <;>
      simp +decide [hs, hcond, hC, hU, hR, specAllowed]
  · cases v <;>
      cases hcond : ((_isEventFromMe c e && _isOutbound c) ||
          (!_isEventFromMe c e && !_isOutbound c)) <;>
        simp +decide [hs, hcond, hC, hU, hR, specAllowed, CallStatusV.str]

/-- Witness for C2: an outbound call in STARTED with no conversation set
moves to UNANSWERED on rtc:hangup. -/
theorem rtc_hangup_status_outcomes_witness :
    _handleStatusChange true
        { status := some CALL_STATUS.STARTED, direction := CALL_DIRECTION.OUTBOUND }
        { type := "rtc:hangup" } =
      { status := some CALL_STATUS.UNANSWERED,
        direction := CALL_DIRECTION.OUTBOUND, emitted := 1 } := by
  simpa using rtc_hangup_status_outcomes true
    { status := some CALL_STATUS.STARTED, direction := CALL_DIRECTION.OUTBOUND }
    { type := "rtc:hangup" } (some CallStatusV.started) rfl rfl

/-! ### C6: member:media leg capture and transition to ANSWERED -/

/-- Lemma: on a member:media event _handleStatusChange reduces to the media
branch of the dispatch map. -/
theorem member_media_dispatch (enableOk : Bool) (c : Call) (e : NXMEvent)
    (ht : e.type = "member:media") :
    _handleStatusChange enableOk c e =
      (if !(c.status == some CALL_STATUS.ANSWERED) && e.body.audio then
        (let c1 := if _isEventFromMe c e && e.body.channel.isSome then
            { c with id := (e.body.channel.getD {}).id }
          else c
        if (!_isEventFromMe c e || !_isOutbound c) && jsTruthyStr c1.id then
          _setStatusAndEmitOk c1 CALL_STATUS.ANSWERED
        else c1)
      else c) := by
  unfold _handleStatusChange
  rw [ht]
  simp

/-- Counterexample for C6 as stated: a call in the terminal status COMPLETED
is not in ANSWERED, the audio event carries a channel with a leg id, it is
not a local-outbound self-notification (the call is inbound), yet the status
does not become ANSWERED because the transition table rejects leaving a
terminal status. -/
theorem member_media_terminal_counterexample :
    (_handleStatusChange true { status := some CALL_STATUS.COMPLETED }
        { type := "member:media",
          body := { audio := true, channel := some { id := some "leg1" } } }).status =
      some CALL_STATUS.COMPLETED ∧
      some CALL_STATUS.COMPLETED ≠ some CALL_STATUS.ANSWERED := by
  constructor
  · rfl
  · decide

/-- C6 (amended): for a member:media event, when the status is already
ANSWERED or the event indicates no audio, neither the leg id nor the status
changes.  Otherwise the leg id is captured from the event channel exactly
when the event originates from the local party, and the ANSWERED transition
is requested exactly when a leg id is then known and the event is not a
local-outbound self-notification; the status actually becomes ANSWERED (with
one status event emitted) exactly when additionally the current status is
null, STARTED or RINGING. -/
theorem member_media_leg_capture_and_answer (enableOk : Bool) (c : Call)
    (e : NXMEvent) (fr : Option CallStatusV) (ht : e.type = "member:media")
    (hs : c.status = fr.map CallStatusV.str) :
    _handleStatusChange enableOk c e =
      if fr = some CallStatusV.answered then c
      else if e.body.audio = false then c
      else
        (let c1 := if _isEventFromMe c e && e.body.channel.isSome then
            { c with id := (e.body.channel.getD {}).id }
          else c
        if (!_isEventFromMe c e || !_isOutbound c) && jsTruthyStr c1.id then
          (if fr = none ∨ fr = some CallStatusV.started ∨ fr = some CallStatusV.ringing then
            { c1 with status := some CALL_STATUS.ANSWERED, emitted := c1.emitted + 1 }
          else c1)
        else c1) := by
  have hA : ({ c with id := (e.body.channel.getD {}).id } : Call).status =
      fr.map CallStatusV.str := hs
  have h1 := setStatusAndEmitOk_eq { c with id := (e.body.channel.getD {}).id }
    fr CallStatusV.answered hA
  have h2 := setStatusAndEmitOk_eq c fr CallStatusV.answered hs
  simp only [CallStatusV.str] at h1 h2
  rw [member_media_dispatch enableOk c e ht]
  rcases fr with _ | v
  all_goals try cases v
  all_goals
    cases ha : e.body.audio <;>
      cases hm : _isEventFromMe c e <;>
        cases hch : e.body.channel.isSome <;>
          cases hans : (c.status == some CALL_STATUS.ANSWERED) <;>
            first
            | (simp +decide [ha, hm, hch, hans, h1, h2, specAllowed]; done)
            | (simp +decide [hs, CallStatusV.str] at hans)

/-- Witness for C6: an inbound call in STARTED receiving a local audio event
with a channel captures the leg id and moves to ANSWERED. -/
theorem member_media_leg_capture_and_answer_witness :
    _handleStatusChange true { status := some CALL_STATUS.STARTED }
        { type := "member:media",
          body := { audio := true, channel := some { id := some "leg1" } } } =
      { status := some CALL_STATUS.ANSWERED, id := some "leg1", emitted := 1 } := by
  have h := member_media_leg_capture_and_answer true
    { status := some CALL_STATUS.STARTED }
    { type := "member:media",
      body := { audio := true, channel := some { id := some "leg1" } } }
    (some CallStatusV.started) rfl rfl
  rw [h]
  rfl

/-- Witness for C7 at the rejected transition COMPLETED to STARTED. -/
theorem set_status_nonfatal_for_truthy_witness :
    (∃ c2, _setStatusAndEmit { status := some CALL_STATUS.COMPLETED }
        (some CALL_STATUS.STARTED) = .ok c2) ∧
      (_isValidStatusTransition (some CALL_STATUS.COMPLETED)
          (some CALL_STATUS.STARTED) = .ok false →
        _setStatusAndEmit { status := some CALL_STATUS.COMPLETED }
          (some CALL_STATUS.STARTED) = .ok { status := some CALL_STATUS.COMPLETED }) :=
  set_status_nonfatal_for_truthy { status := some CALL_STATUS.COMPLETED }
    CALL_STATUS.STARTED (by decide)

/-! ### Lookup lemmas for the JS Map model -/

/-- Lemma: looking up a key after filtering out another key is unchanged. -/
theorem lookup_filter_ne [BEq κ] [LawfulBEq κ] (m : List (κ × α)) (k k2 : κ)
    (h : k2 ≠ k) :
    List.lookup k2 (m.filter (fun p => p.1 != k)) = List.lookup k2 m := by
  induction m with
  | nil => rfl
  | cons x xs ih =>
    obtain ⟨xk, xv⟩ := x
    by_cases hx : xk = k
    · have hb : (k2 == k) = false := by simp [h]
      simp [hx, List.filter_cons, List.lookup, hb, ih]
    · have hpk : (xk != k) = true := by simp [hx]
      cases hk2 : (k2 == xk) <;>
        simp [List.filter_cons, List.lookup, hpk, hk2, ih]

/-- Lemma: mapSet makes the key map to the value. -/
theorem mapGet_mapSet_self [BEq κ] [LawfulBEq κ] (m : List (κ × α)) (k : κ) (v : α) :
    mapGet (mapSet m k v) k = some v := by
  simp [mapGet, mapSet, List.lookup]

/-- Lemma: mapSet leaves other keys unchanged. -/
theorem mapGet_mapSet_ne [BEq κ] [LawfulBEq κ] (m : List (κ × α)) (k k2 : κ)
    (v : α) (h : k2 ≠ k) : mapGet (mapSet m k v) k2 = mapGet m k2 := by
  have hb : (k2 == k) = false := by simp [h]
  simp [mapGet, mapSet, List.lookup, hb, lookup_filter_ne m k k2 h]

/-- Lemma: mapDelete removes the key. -/
theorem mapGet_mapDelete_self [BEq κ] [LawfulBEq κ] (m : List (κ × α)) (k : κ) :
    mapGet (mapDelete m k) k = none := by
  induction m with
  | nil => rfl
  | cons x xs ih =>
    obtain ⟨xk, xv⟩ := x
    by_cases hx : xk = k
    · simp [mapDelete, mapGet, List.filter_cons, hx] at ih ⊢
      exact ih
    · have hpk : (xk != k) = true := by simp [hx]
      have hb : (k == xk) = false := by simp [Ne.symm hx]
      simp [mapDelete, mapGet, List.filter_cons, hpk, List.lookup, hb] at ih ⊢
      exact ih

/-- Lemma: mapDelete leaves other keys unchanged. -/
theorem mapGet_mapDelete_ne [BEq κ] [LawfulBEq κ] (m : List (κ × α)) (k k2 : κ)
    (h : k2 ≠ k) : mapGet (mapDelete m k) k2 = mapGet m k2 :=
  lookup_filter_ne m k k2 h

/-- Lemma: mapUpdate maps the stored value at the key. -/
theorem mapGet_mapUpdate_self [BEq κ] [LawfulBEq κ] (m : List (κ × α)) (k : κ)
    (f : α → α) : mapGet (mapUpdate m k f) k = (mapGet m k).map f := by
  induction m with
  | nil => rfl
  | cons x xs ih =>
    obtain ⟨xk, xv⟩ := x
    by_cases hx : xk = k
    · have hbt : (xk == k) = true := by simp [hx]
      have hb3 : (k == xk) = true := by simp [hx]
      simp only [mapGet, mapUpdate, List.map_cons]
      rw [if_pos hbt]
      simp [List.lookup, hb3]
    · have hb2 : (xk == k) = false := by simp [hx]
      have hb : (k == xk) = false := by simp [Ne.symm hx]
      simp only [mapGet, mapUpdate, List.map_cons] at ih ⊢
      rw [if_neg (by simp [hb2])]
      simp [List.lookup, hb, ih]

/-- Lemma: mapUpdate leaves other keys unchanged. -/
theorem mapGet_mapUpdate_ne [BEq κ] [LawfulBEq κ] (m : List (κ × α)) (k k2 : κ)
    (f : α → α) (h : k2 ≠ k) : mapGet (mapUpdate m k f) k2 = mapGet m k2 := by
  induction m with
  | nil => rfl
  | cons x xs ih =>
    obtain ⟨xk, xv⟩ := x
    by_cases hx : xk = k
    · have hbt : (xk == k) = true := by simp [hx]
      have hb : (k2 == xk) = false := by simp [hx, h]
      simp only [mapGet, mapUpdate, List.map_cons] at ih ⊢
      rw [if_pos hbt]
      simp [List.lookup, hb, ih]
    · have hb2 : (xk == k) = false := by simp [hx]
      simp only [mapGet, mapUpdate, List.map_cons] at ih ⊢
      rw [if_neg (by simp [hb2])]
      cases hk2 : (k2 == xk) <;> simp [List.lookup, hk2, ih]

/-! ### C3: the conversation sequence counter -/

/-- Counterexample for C3 as stated: a text:typing:on event does increment
sequence_number (the typing exemption in the source only skips the event-log
registration), so the claim that the counter is unchanged for typing
indicators fails. -/
theorem typing_increments_sequence_counterexample :
    ¬ ((Conversation_handleEvent { sequence_number := 0 }
          { type := "text:typing:on", fromId := some "m1" } 1).sequence_number =
        ({ sequence_number := 0 } : ConvState).sequence_number) := by
  decide

/-- C3 (amended): every processed event whose type is not RTC-prefixed
increments the conversation sequence_number by exactly 1, the two
typing-indicator types included; the typing exemption applies only to the
registration of the event in the conversation event log. -/
theorem sequence_number_increments_per_event (c : ConvState) (e : RawEvent)
    (constructedId : Nat) (h : jsStartsWith e.type "rtc" = false) :
    (Conversation_handleEvent c e constructedId).sequence_number =
      c.sequence_number + 1 := by
  unfold Conversation_handleEvent
  rw [h]
  simp only [Bool.false_eq_true, if_false]
  cases e.fromId <;> (repeat' split) <;> simp_all

/-- Witness for C3 at a typing event. -/
theorem sequence_number_increments_per_event_witness :
    (Conversation_handleEvent { sequence_number := 5 }
        { type := "text:typing:on", fromId := some "m1" } 7).sequence_number =
      5 + 1 :=
  sequence_number_increments_per_event { sequence_number := 5 }
    { type := "text:typing:on", fromId := some "m1" } 7 (by decide)

/-! ### C10: member call-status change detection -/

/-- C10: Member._setCallStatusAndEmit is change-detecting: a value equal (as
a string) to the current callStatus leaves the member unchanged and emits no
member:call:status event, a different value is assigned and emits exactly
one; consequently applying the same driving member event twice in a row
never emits on the second application. -/
theorem member_call_status_change_detection :
    (∀ (m : MemberState) (s : String),
      Member_setCallStatusAndEmit m s =
        if m.callStatus = some s then (m, false)
        else ({ m with callStatus := some s }, true)) ∧
    (∀ (m : MemberState) (e : MemberEvent),
      (Member_handleEvent (Member_handleEvent m e).1 e).2 = false) := by
  have hset : ∀ (m : MemberState) (s : String),
      Member_setCallStatusAndEmit m s =
        if m.callStatus = some s then (m, false)
        else ({ m with callStatus := some s }, true) := by
    intro m s
    unfold Member_setCallStatusAndEmit
    by_cases h : m.callStatus = some s <;> simp [h]
  refine ⟨hset, ?_⟩
  intro m e
  by_cases h1 : e.type = "member:invited"
  · cases hcond : (!jsTruthyStr e.invited_by && e.userAudioEnabled) with
    | false => simp [Member_handleEvent, h1, hcond]
    | true =>
      by_cases hm : m.callStatus = some "started" <;>
        simp [Member_handleEvent, h1, hcond, Member_setCallStatusAndEmit, hm]
  by_cases h2 : e.type = "member:joined"
  · cases hcond : (match e.channel with
        | some ch => jsTruthyStr ch.knocking_id
        | none => false) with
    | false => simp [Member_handleEvent, h1, h2, hcond]
    | true =>
      by_cases hm : m.callStatus = some "started" <;>
        simp [Member_handleEvent, h1, h2, hcond, Member_setCallStatusAndEmit, hm]
  by_cases h3 : e.type = "member:left"
  · rcases hr : e.reason_text with _ | t
    · simp [Member_handleEvent, h1, h2, h3, hr]
    · cases htt : (t != "") with
      | false => simp [Member_handleEvent, h1, h2, h3, hr, htt]
      | true =>
        by_cases hm : m.callStatus = some t <;>
          simp [Member_handleEvent, h1, h2, h3, hr, htt, Member_setCallStatusAndEmit, hm]
  by_cases h4 : e.type = "member:media"
  · simp [Member_handleEvent, h1, h2, h3, h4]
  by_cases h5 : e.type = "leg:status:update"
  · by_cases hm : m.callStatus = some e.status <;>
      simp [Member_handleEvent, h1, h2, h3, h4, h5, Member_setCallStatusAndEmit, hm]
  by_cases h6 : e.type = "audio:ringing:start"
  · cases hg : (!jsTruthyStr m.callStatus || m.callStatus == some "started") with
    | false => simp [Member_handleEvent, h1, h2, h3, h4, h5, h6, hg]
    | true =>
      by_cases hm : m.callStatus = some "ringing" <;>
        simp +decide [Member_handleEvent, h1, h2, h3, h4, h5, h6, hg,
          Member_setCallStatusAndEmit, hm]
  · simp [Member_handleEvent, h1, h2, h3, h4, h5, h6]

/-! ### C8: optimistic mute and its rollback -/

/-- Lemma: mapping a constant over a list whose entries all equal that
constant returns the list itself. -/
theorem map_const_of_all_eq (l : List Bool) (b : Bool)
    (h : l.all (fun t => t == b) = true) : l.map (fun _ => b) = l := by
  induction l with
  | nil => rfl
  | cons x xs ih =>
    simp only [List.all_cons, Bool.and_eq_true, beq_iff_eq] at h
    simp [h.1, ih h.2]

/-- Counterexample for C8 as stated: muting a single already-disabled track
with a failing send leaves the track enabled, not in its pre-call disabled
state, so the rollback does not restore the pre-call enablement. -/
theorem mute_rollback_counterexample :
    (_setMediaTracksAndMute [false] true false).1 ≠ [false] := by decide

/-- C8 (amended): the operation toggles the tracks optimistically and, when
the send fails, sets every affected track enablement to the mute flag (the
presumed pre-call value) before the NexmoApiError is re-raised; the observable
track state is therefore unchanged on failure exactly when every affected
track enablement already equalled the mute flag before the call. -/
theorem mute_rollback_sets_mute_flag (tracks : List Bool) (mute : Bool) :
    _setMediaTracksAndMute tracks mute false =
      (tracks.map (fun _ => mute), some "NexmoApiError") ∧
      (tracks.all (fun t => t == mute) = true →
        _setMediaTracksAndMute tracks mute false = (tracks, some "NexmoApiError")) := by
  have hmain : _setMediaTracksAndMute tracks mute false =
      (List.map (fun _ => mute) (List.map (fun _ => !mute) tracks),
        some "NexmoApiError") := rfl
  rw [List.map_map] at hmain
  have hcomp : ((fun _ => mute) ∘ (fun _ => !mute) : Bool → Bool) = fun _ => mute := rfl
  rw [hcomp] at hmain
  exact ⟨hmain, fun h => by rw [hmain, map_const_of_all_eq tracks mute h]⟩

/-- Witness for C8: a single enabled track muted with a failing send is
rolled back to enabled. -/
theorem mute_rollback_sets_mute_flag_witness :
    _setMediaTracksAndMute [true] true false = ([true], some "NexmoApiError") :=
  (mute_rollback_sets_mute_flag [true] true).2 (by decide)

/-! ### C9: client validation errors never reach the network -/

/-- C9: a Conversation.invite call with params missing both a truthy id and a
truthy user_name rejects with error:invite:missing:params and sends zero
network requests, and a Media.sendDTMF call with an invalid digit rejects
with error:audio:dtmf:invalid-digit and sends zero network requests,
regardless of the network oracle. -/
theorem client_validation_no_network :
    (∀ (params : Option InviteParams) (sendOk : Bool),
      (params = none ∨ ∃ p, params = some p ∧
        jsTruthyStr p.id = false ∧ jsTruthyStr p.user_name = false) →
      invite params sendOk = (.error "error:invite:missing:params", 0)) ∧
    (∀ (digit : String) (sendOk : Bool), validateDTMF digit = false →
      sendDTMF digit sendOk = (.error "error:audio:dtmf:invalid-digit", 0)) := by
  constructor
  · rintro params sendOk (rfl | ⟨p, rfl, hid, hname⟩)
    · rfl
    · simp [invite, hid, hname]
  · intro digit sendOk h
    simp [sendDTMF, h]

/-- Witness for C9: a missing params object and the invalid digit z. -/
theorem client_validation_no_network_witness :
    invite none true = (.error "error:invite:missing:params", 0) ∧
      sendDTMF "z" true = (.error "error:audio:dtmf:invalid-digit", 0) :=
  ⟨client_validation_no_network.1 none true (Or.inl rfl),
    client_validation_no_network.2 "z" true (by decide)⟩

/-! ### C4: rtc:transfer relocates the call -/

/-- Counterexample for C4 as stated: an rtc:transfer event whose new
conversation id equals the old one removes the call from application.calls
entirely (the source sets the new key and then deletes the old, identical,
key), so afterwards the calls map does not contain the call under the new
conversation id. -/
theorem rtc_transfer_same_cid_counterexample :
    mapGet (_processRtcTransfer
      { conversations :=
          [("cA", { id := "cA", meId := "me1", members := [("m1", {})] })],
        calls := [("cA", 0)],
        callObjs := [(0, { conv := some ⟨"cA", "me1"⟩ })] }
      { cid := "cA", fromId := "m1", transferred_from := "cA",
        was_member := "m1" }).calls "cA" = none := by
  decide

/-- C4 (amended): processing an rtc:transfer event for a known call whose new
conversation id differs from the old one relocates the call so that
application.calls contains it exactly under the new conversation id: the new
key maps to the call, the old key is removed, any key mapping to the call is
the new key (given the call was only under the old key before), and the
transferred member of the old conversation gets transferred_to set to the new
conversation.  The handler is synchronous, so no intermediate state is
observable. -/
theorem rtc_transfer_relocates_call (app : AppState) (e : RtcTransferEvent)
    (r : Nat) (call : Call) (cr : ConvRef) (oc nc : AppConversation)
    (mem : AppMember)
    (hr : mapGet app.calls e.transferred_from = some r)
    (hobj : mapGet app.callObjs r = some call)
    (hcc : call.conv = some cr)
    (hcid : cr.id = e.transferred_from)
    (hoc : mapGet app.conversations e.transferred_from = some oc)
    (hnc : mapGet app.conversations e.cid = some nc)
    (hmem : mapGet oc.members e.was_member = some mem)
    (hne : e.cid ≠ e.transferred_from)
    (huniq : ∀ k2, mapGet app.calls k2 = some r → k2 = e.transferred_from) :
    mapGet (_processRtcTransfer app e).calls e.cid = some r ∧
      mapGet (_processRtcTransfer app e).calls e.transferred_from = none ∧
      (∀ k2, mapGet (_processRtcTransfer app e).calls k2 = some r → k2 = e.cid) ∧
      (∃ oc2 mem2,
        mapGet (_processRtcTransfer app e).conversations e.transferred_from =
          some oc2 ∧
        mapGet oc2.members e.was_member = some mem2 ∧
        mem2.transferred_to = some e.cid) := by
  have hstep : _processRtcTransfer app e =
      { app with
          conversations :=
            mapUpdate
              (mapUpdate app.conversations e.transferred_from
                (fun oc3 =>
                  { oc3 with
                      members :=
                        mapUpdate oc3.members e.was_member
                          (fun m2 => { m2 with transferred_to := some e.cid }) }))
              e.cid
              (fun nc2 =>
                { nc2 with
                    members :=
                      mapUpdate nc2.members e.fromId
                        (fun m2 =>
                          { m2 with
                              transferred_from := some e.transferred_from }) }),
          callObjs :=
            mapSet app.callObjs r
              { call with conv := some ⟨nc.id, nc.meId⟩, transferred := true },
          calls := mapDelete (mapSet app.calls e.cid r) e.transferred_from } := by
    simp only [_processRtcTransfer, hr, hobj, hcc, hcid, hoc, hnc,
      Option.isSome_some, if_true]
  rw [hstep]
  refine ⟨?_, ?_, ?_, ?_⟩
  · rw [mapGet_mapDelete_ne _ _ _ hne, mapGet_mapSet_self]
  · exact mapGet_mapDelete_self _ _
  · intro k2 hk2
    by_cases hk : k2 = e.transferred_from
    · rw [hk, mapGet_mapDelete_self] at hk2
      exact absurd hk2 (by simp)
    · rw [mapGet_mapDelete_ne _ _ _ hk] at hk2
      by_cases hc : k2 = e.cid
      · exact hc
      · rw [mapGet_mapSet_ne _ _ _ _ hc] at hk2
        exact absurd (huniq k2 hk2) hk
  · refine ⟨{ oc with
        members :=
          mapUpdate oc.members e.was_member
            (fun m2 => { m2 with transferred_to := some e.cid }) },
      { mem with transferred_to := some e.cid }, ?_, ?_, rfl⟩
    · rw [mapGet_mapUpdate_ne _ _ _ _ (Ne.symm hne), mapGet_mapUpdate_self, hoc]
      rfl
    · rw [mapGet_mapUpdate_self, hmem]
      rfl

/-- Witness for C4: a two-conversation application where the call under cOld
is transferred to cNew. -/
theorem rtc_transfer_relocates_call_witness :
    mapGet (_processRtcTransfer
        { conversations :=
            [("cOld", { id := "cOld", meId := "me1", members := [("m1", {})] }),
              ("cNew", { id := "cNew", meId := "me1", members := [("m2", {})] })],
          calls := [("cOld", 0)],
          callObjs := [(0, { conv := some ⟨"cOld", "me1"⟩ })] }
        { cid := "cNew", fromId := "m2", transferred_from := "cOld",
          was_member := "m1" }).calls "cNew" = some 0 ∧
      mapGet (_processRtcTransfer
        { conversations :=
            [("cOld", { id := "cOld", meId := "me1", members := [("m1", {})] }),
              ("cNew", { id := "cNew", meId := "me1", members := [("m2", {})] })],
          calls := [("cOld", 0)],
          callObjs := [(0, { conv := some ⟨"cOld", "me1"⟩ })] }
        { cid := "cNew", fromId := "m2", transferred_from := "cOld",
          was_member := "m1" }).calls "cOld" = none := by
  have h := rtc_transfer_relocates_call
    { conversations :=
        [("cOld", { id := "cOld", meId := "me1", members := [("m1", {})] }),
          ("cNew", { id := "cNew", meId := "me1", members := [("m2", {})] })],
      calls := [("cOld", 0)],
      callObjs := [(0, { conv := some ⟨"cOld", "me1"⟩ })] }
    { cid := "cNew", fromId := "m2", transferred_from := "cOld",
      was_member := "m1" }
    0 { conv := some ⟨"cOld", "me1"⟩ } ⟨"cOld", "me1"⟩
    { id := "cOld", meId := "me1", members := [("m1", {})] }
    { id := "cNew", meId := "me1", members := [("m2", {})] }
    {} rfl rfl rfl rfl rfl rfl rfl (by decide)
    (fun k2 hk2 => by
      by_cases hk : k2 = "cOld"
      · exact hk
      · have hb : (k2 == "cOld") = false := by simp [hk]
        simp [mapGet, List.lookup, hb] at hk2)
  exact ⟨h.1, h.2.1⟩

/-! ### C5: server-call draft migration -/

/-- C5: callServer returns, on a successful knocking response, the reference
of a fresh outbound call whose knocking_id is the knocking response id and
whose client correlation reference is registered in the draft list; a
subsequent member:joined event carrying a knocking-channel marker and that
correlation reference binds the call to the conversation of the event,
registers it in application.calls under the conversation id, removes the
draft entry, and runs the event through the call status state machine so that
(with the media enable succeeding) the status becomes STARTED with one status
event emitted. -/
theorem server_call_draft_migration (app : AppState) (uuid kid : String)
    (cid mfrom kref : String) (chid : Option String) (conv : AppConversation)
    (huuid : uuid ≠ "") (hkref : kref ≠ "")
    (hconv : mapGet app.conversations cid = some conv) :
    (callServer app uuid (some kid)).2 = .ok app.nextRef ∧
      (∃ cF, mapGet (callServer app uuid (some kid)).1.callObjs app.nextRef =
          some cF ∧
        cF.knocking_id = some kid ∧ cF.client_ref = some uuid ∧
        cF.status = none ∧ cF.direction = CALL_DIRECTION.OUTBOUND) ∧
      mapGet (callServer app uuid (some kid)).1._call_draft_list uuid =
        some app.nextRef ∧
      (mapGet (_processMemberJoined true (callServer app uuid (some kid)).1
          { cid := cid, fromId := mfrom, client_ref := some uuid,
            channel := some { id := chid, knocking_id := some kref } }).calls
          conv.id = some app.nextRef ∧
       mapGet (_processMemberJoined true (callServer app uuid (some kid)).1
          { cid := cid, fromId := mfrom, client_ref := some uuid,
            channel := some { id := chid, knocking_id := some kref } })._call_draft_list
          uuid = none ∧
       (∃ c2, mapGet (_processMemberJoined true (callServer app uuid (some kid)).1
            { cid := cid, fromId := mfrom, client_ref := some uuid,
              channel := some { id := chid, knocking_id := some kref } }).callObjs
            app.nextRef = some c2 ∧
          c2.status = some CALL_STATUS.STARTED ∧
          c2.conv = some ⟨conv.id, conv.meId⟩ ∧
          c2.knocking_id = none ∧ c2.client_ref = none ∧ c2.emitted = 1)) := by
  have hu : (uuid != "") = true := by simp [huuid]
  have hk : (kref != "") = true := by simp [hkref]
  have hcs : callServer app uuid (some kid) =
      ({ app with
          callObjs := mapSet (mapSet (mapSet app.callObjs app.nextRef
              { direction := CALL_DIRECTION.OUTBOUND }) app.nextRef
              { direction := CALL_DIRECTION.OUTBOUND, client_ref := some uuid })
            app.nextRef
            { direction := CALL_DIRECTION.OUTBOUND, knocking_id := some kid,
              client_ref := some uuid },
          _call_draft_list := mapSet app._call_draft_list uuid app.nextRef,
          nextRef := app.nextRef + 1 }, .ok app.nextRef) := by
    simp only [callServer, createServerCall, mapGet_mapSet_self]
  rw [hcs]
  refine ⟨rfl, ⟨_, mapGet_mapSet_self _ _ _, rfl, rfl, rfl, rfl⟩,
    mapGet_mapSet_self _ _ _, ?_⟩
  simp +decide [_processMemberJoined, _handleStatusChange, _setStatusAndEmitOk,
    _setStatusAndEmit, _isValidStatusTransition, jsTruthyStr, hu, hk, hconv,
    mapGet_mapSet_self, mapGet_mapDelete_self]

/-- Witness for C5: an application holding one conversation, a fresh server
call for correlation id uuid1 and knocking id kid1, migrated by the matching
member:joined event. -/
theorem server_call_draft_migration_witness :
    (callServer { conversations := [("c1", { id := "c1", meId := "me1" })] }
        "uuid1" (some "kid1")).2 = .ok 0 ∧
      (∃ cF, mapGet (callServer
          { conversations := [("c1", { id := "c1", meId := "me1" })] }
          "uuid1" (some "kid1")).1.callObjs 0 = some cF ∧
        cF.knocking_id = some "kid1" ∧ cF.client_ref = some "uuid1" ∧
        cF.status = none ∧ cF.direction = CALL_DIRECTION.OUTBOUND) ∧
      mapGet (callServer { conversations := [("c1", { id := "c1", meId := "me1" })] }
          "uuid1" (some "kid1")).1._call_draft_list "uuid1" = some 0 ∧
      (mapGet (_processMemberJoined true (callServer
          { conversations := [("c1", { id := "c1", meId := "me1" })] }
          "uuid1" (some "kid1")).1
          { cid := "c1", fromId := "m1", client_ref := some "uuid1",
            channel := some { id := some "leg1", knocking_id := some "kn1" } }).calls
          "c1" = some 0 ∧
       mapGet (_processMemberJoined true (callServer
          { conversations := [("c1", { id := "c1", meId := "me1" })] }
          "uuid1" (some "kid1")).1
          { cid := "c1", fromId := "m1", client_ref := some "uuid1",
            channel := some { id := some "leg1", knocking_id := some "kn1" } })._call_draft_list
          "uuid1" = none ∧
       (∃ c2, mapGet (_processMemberJoined true (callServer
            { conversations := [("c1", { id := "c1", meId := "me1" })] }
            "uuid1" (some "kid1")).1
            { cid := "c1", fromId := "m1", client_ref := some "uuid1",
              channel := some { id := some "leg1", knocking_id := some "kn1" } }).callObjs
            0 = some c2 ∧
          c2.status = some CALL_STATUS.STARTED ∧
          c2.conv = some ⟨"c1", "me1"⟩ ∧
          c2.knocking_id = none ∧ c2.client_ref = none ∧ c2.emitted = 1)) :=
  server_call_draft_migration
    { conversations := [("c1", { id := "c1", meId := "me1" })] }
    "uuid1" "kid1" "c1" "m1" "kn1" (some "leg1") { id := "c1", meId := "me1" }
    (by decide) (by decide) rfl

end NexmoSDK
